import Mathlib

/-!
Verification development for the sas7bdat reader (src/sas7bdat.py).

The Python source is shallowly embedded: bytes are `Nat` values below 256,
Python strings and lists become `List Nat`, Python integers become `Int`
(or `Nat` for loop cursors that are provably non-negative in the source),
and code that can raise an exception returns `Option`.  Python indexing
and slicing semantics (negative indices wrap, slices clamp) are modelled
by `pyIdx`, `pyGetSlice` and `pySetSlice`.
-/

set_option maxRecDepth 8000

/-- Python single-element indexing `l[i]`: a negative index wraps once from
the end; an out-of-range index raises (`none`). -/
def pyIdx {α : Type} (l : List α) (i : Int) : Option α :=
  if i < 0 then
    let j := i + l.length
    if j < 0 then none else l.get? j.toNat
  else l.get? i.toNat

/-- Python slicing `l[a:b]`: negative bounds wrap once from the end, then
both bounds are clamped into `[0, len]`; never raises. -/
def pyGetSlice {α : Type} (l : List α) (a b : Int) : List α :=
  let n : Int := l.length
  let a1 := if a < 0 then a + n else a
  let b1 := if b < 0 then b + n else b
  let a2 := min (max a1 0) n
  let b2 := min (max b1 0) n
  (l.drop a2.toNat).take (b2.toNat - a2.toNat)

/-- Python slice assignment `l[a:b] = p` for non-negative bounds with
`a ≤ b` (the only shape the source uses): the replaced range is clamped to
the list, and the replacement list may have a different length. -/
def pySetSlice {α : Type} (l : List α) (a b : Nat) (p : List α) : List α :=
  let a1 := min a l.length
  let b1 := min (max b a) l.length
  l.take a1 ++ p ++ l.drop b1

/-- Python `str.strip(chars)`: drop members of `cs` from both ends. -/
def pyStripChars (cs : List Nat) (l : List Nat) : List Nat :=
  ((l.dropWhile (fun b => cs.contains b)).reverse.dropWhile
    (fun b => cs.contains b)).reverse

/-- Characters of Python default `str.strip()`. -/
def whitespaceChars : List Nat := [32, 9, 10, 13, 11, 12]

/-- Python `s.strip('\x00')`. -/
def pyStripNul (l : List Nat) : List Nat := pyStripChars [0] l

/-- Python `s.strip()`. -/
def pyStripWhitespace (l : List Nat) : List Nat := pyStripChars whitespaceChars l

inductive Endian where
  | little
  | big
deriving DecidableEq

/-- Unsigned integer value of a byte string under the given endianness. -/
def unsignedOfBytes (e : Endian) (bs : List Nat) : Nat :=
  match e with
  | .little => bs.foldr (fun b acc => b + 256 * acc) 0
  | .big => bs.foldl (fun acc b => 256 * acc + b) 0

/-- Two's-complement signed value of a byte string, as `struct.unpack`
of a signed format of exactly `bs.length` bytes produces. -/
def signedOfBytes (e : Endian) (bs : List Nat) : Int :=
  let u := unsignedOfBytes e bs
  let m := 256 ^ bs.length
  if 2 * u < m then (u : Int) else (u : Int) - m

/-- IEEE-754 NaN test on the raw 64-bit pattern (`math.isnan` in the
source): exponent bits all ones and a non-zero mantissa. -/
def isNanBits (u : Nat) : Bool :=
  ((u >>> 52) &&& 2047 == 2047) && (u &&& 4503599627370495 != 0)

/-- Typed cell values produced by `SAS7BDAT._read_val`.  Doubles and the
temporal values keep the raw 64-bit IEEE-754 pattern: the source turns the
pattern into a float (and, for temporal formats, shifts it by the
1960-01-01 epoch, a bijection on finite values) which a shallow embedding
keeps as the tagged bit pattern. -/
inductive Cell where
  | missing
  | int (v : Int)
  | num (bits : Nat)
  | str (s : List Nat)
  | datetime (bits : Nat)
  | date (bits : Nat)
  | time (bits : Nat)
deriving DecidableEq

/-- `SAS7BDAT._read_val` with `fmt == 'h'` (lines 495-526): unpack a
signed short from `bytes[:size]`; `struct.unpack` raises unless that
slice has exactly 2 bytes. -/
def read_val_h (e : Endian) (bytes : List Nat) (size : Int) : Option Int :=
  let b := pyGetSlice bytes 0 size
  if b.length = 2 then some (signedOfBytes e b) else none

/-- `SAS7BDAT._read_val` with `fmt == 'b'`: one signed byte. -/
def read_val_b (e : Endian) (bytes : List Nat) (size : Int) : Option Int :=
  let b := pyGetSlice bytes 0 size
  if b.length = 1 then some (signedOfBytes e b) else none

/-- `SAS7BDAT._read_val` with `fmt == 'i'` (lines 496-497): on a u64 file
with `size == 8` the format becomes `'q'` (8 bytes), otherwise `'i'`
(4 bytes); `struct.unpack` requires the exact width. -/
def read_val_i (u64 : Bool) (e : Endian) (bytes : List Nat) (size : Int) :
    Option Int :=
  let b := pyGetSlice bytes 0 size
  let need : Nat := if u64 && size == 8 then 8 else 4
  if b.length = need then some (signedOfBytes e b) else none

/-- `SAS7BDAT._read_val` with `fmt == 's'` (lines 499-500, 516-517): the
format `'%ds' % min(size, len(bytes))` raises for a negative count;
otherwise the slice is stripped of NULs and then of whitespace. -/
def read_val_s (bytes : List Nat) (size : Int) : Option (List Nat) :=
  if min size (bytes.length : Int) < 0 then none
  else some (pyStripWhitespace (pyStripNul (pyGetSlice bytes 0 size)))

/-- Shared numeric path of `SAS7BDAT._read_val` for the
`number/datetime/date/time` formats (lines 501-515): short values are
zero-padded to 8 bytes on the low side (little-endian) or high side
(big-endian); `struct.unpack('d', ...)` requires exactly 8 bytes.
Returns the raw 64-bit pattern. -/
def read_val_double_bits (e : Endian) (bytes : List Nat) (size : Int) :
    Option Nat :=
  let size1 : Int := if (bytes.length : Int) ≠ size then (bytes.length : Int) else size
  let padded :=
    if size1 < 8 then
      match e with
      | .little => List.replicate (8 - size1).toNat 0 ++ bytes
      | .big => bytes ++ List.replicate (8 - size1).toNat 0
    else bytes
  let size2 : Int := if size1 < 8 then 8 else size1
  let b := pyGetSlice padded 0 size2
  if b.length = 8 then some (unsignedOfBytes e b) else none

/-- `_read_val` with `fmt == 'number'`: NaN becomes the missing value. -/
def read_val_number (e : Endian) (bytes : List Nat) (size : Int) : Option Cell := do
  let u ← read_val_double_bits e bytes size
  pure (if isNanBits u then Cell.missing else Cell.num u)

/-- `_read_val` with `fmt == 'datetime'` (NaN checked first). -/
def read_val_datetime (e : Endian) (bytes : List Nat) (size : Int) : Option Cell := do
  let u ← read_val_double_bits e bytes size
  pure (if isNanBits u then Cell.missing else Cell.datetime u)

/-- `_read_val` with `fmt == 'date'`. -/
def read_val_date (e : Endian) (bytes : List Nat) (size : Int) : Option Cell := do
  let u ← read_val_double_bits e bytes size
  pure (if isNanBits u then Cell.missing else Cell.date u)

/-- `_read_val` with `fmt == 'time'`. -/
def read_val_time (e : Endian) (bytes : List Nat) (size : Int) : Option Cell := do
  let u ← read_val_double_bits e bytes size
  pure (if isNanBits u then Cell.missing else Cell.time u)

/-!
RLE decompressor (`RLEDecompressor.decompress_row`, lines 68-162).

The Python `for j in xrange(length): if i != j: continue` loop runs its
body exactly when the cursor `i` (which only moves forward) equals `j`,
i.e. it is a `while i < length` loop; `rle_go` carries the cursor with a
fuel argument that strictly dominates the number of remaining iterations
(every iteration advances `i` by at least one).
-/

/-- Loop body/driver of `RLEDecompressor.decompress_row`.  Returns the
bytes emitted from cursor position `i` on, `none` where Python raises
(single-byte reads past the end of `page`). -/
def rle_go (page : List Nat) (offset : Int) (length : Nat) :
    Nat → Nat → Option (List Nat)
  | 0, i => if length ≤ i then some [] else none
  | fuel + 1, i =>
    if length ≤ i then some []
    else
      match pyIdx page (offset + (i : Int)) with
      | none => none
      | some cb =>
        let control_byte := cb &&& 0xF0
        let end_of_first_byte := cb &&& 0x0F
        if control_byte = 0x00 then
          if i ≠ length - 1 then
            match pyIdx page (offset + (i : Int) + 1) with
            | none => none
            | some nb =>
              let count := (nb &&& 0xFF) + 64 + end_of_first_byte * 256
              let chunk := pyGetSlice page (offset + (i : Int) + 2)
                (offset + (i : Int) + 2 + (count : Int))
              match rle_go page offset length fuel (i + count + 2) with
              | none => none
              | some rest => some (chunk ++ rest)
          else rle_go page offset length fuel (i + 1)
        else if control_byte = 0x40 then
          match pyIdx page (offset + (i : Int) + 1),
              pyIdx page (offset + (i : Int) + 2) with
          | some nb, some c2 =>
            let copy_counter := end_of_first_byte * 16 + (nb &&& 0xFF)
            match rle_go page offset length fuel (i + 3) with
            | none => none
            | some rest => some (List.replicate (copy_counter + 18) c2 ++ rest)
          | _, _ => none
        else if control_byte = 0x60 then
          match pyIdx page (offset + (i : Int) + 1) with
          | none => none
          | some nb =>
            match rle_go page offset length fuel (i + 2) with
            | none => none
            | some rest =>
              some (List.replicate (end_of_first_byte * 256 + (nb &&& 0xFF) + 17)
                0x20 ++ rest)
        else if control_byte = 0x70 then
          match pyIdx page (offset + (i : Int) + 1) with
          | none => none
          | some nb =>
            match rle_go page offset length fuel (i + 2) with
            | none => none
            | some rest => some (List.replicate ((nb &&& 0xFF) + 17) 0x00 ++ rest)
        else if control_byte = 0x80 then
          let count := min (end_of_first_byte + 1) (length - (i + 1))
          let chunk := pyGetSlice page (offset + (i : Int) + 1)
            (offset + (i : Int) + 1 + (count : Int))
          match rle_go page offset length fuel (i + count + 1) with
          | none => none
          | some rest => some (chunk ++ rest)
        else if control_byte = 0x90 then
          let count := min (end_of_first_byte + 17) (length - (i + 1))
          let chunk := pyGetSlice page (offset + (i : Int) + 1)
            (offset + (i : Int) + 1 + (count : Int))
          match rle_go page offset length fuel (i + count + 1) with
          | none => none
          | some rest => some (chunk ++ rest)
        else if control_byte = 0xA0 then
          let count := min (end_of_first_byte + 33) (length - (i + 1))
          let chunk := pyGetSlice page (offset + (i : Int) + 1)
            (offset + (i : Int) + 1 + (count : Int))
          match rle_go page offset length fuel (i + count + 1) with
          | none => none
          | some rest => some (chunk ++ rest)
        else if control_byte = 0xB0 then
          let count := min (end_of_first_byte + 49) (length - (i + 1))
          let chunk := pyGetSlice page (offset + (i : Int) + 1)
            (offset + (i : Int) + 1 + (count : Int))
          match rle_go page offset length fuel (i + count + 1) with
          | none => none
          | some rest => some (chunk ++ rest)
        else if control_byte = 0xC0 then
          match pyIdx page (offset + (i : Int) + 1) with
          | none => none
          | some nb =>
            match rle_go page offset length fuel (i + 2) with
            | none => none
            | some rest => some (List.replicate (end_of_first_byte + 3) nb ++ rest)
        else if control_byte = 0xD0 then
          match rle_go page offset length fuel (i + 1) with
          | none => none
          | some rest => some (List.replicate (end_of_first_byte + 2) 0x40 ++ rest)
        else if control_byte = 0xE0 then
          match rle_go page offset length fuel (i + 1) with
          | none => none
          | some rest => some (List.replicate (end_of_first_byte + 2) 0x20 ++ rest)
        else if control_byte = 0xF0 then
          match rle_go page offset length fuel (i + 1) with
          | none => none
          | some rest => some (List.replicate (end_of_first_byte + 2) 0x00 ++ rest)
        else rle_go page offset length fuel (i + 1)

/-- `RLEDecompressor.decompress_row(offset, length, result_length, page)`.
The source never reads `result_length`; the parameter is kept to mirror
the signature. -/
def rle_decompress_row (offset length result_length : Int) (page : List Nat) :
    Option (List Nat) :=
  rle_go page offset length.toNat (length.toNat + 1) 0

/-!
RDC decompressor (`RDCDecompressor`, lines 165-331).
-/

/-- `RDCDecompressor.bytes_to_bits`: MSB-first bit expansion of `length`
bytes starting at `offset` (all reads are in range at the call site, which
only calls it under the guard `src_offset < len(src_row) - 2`). -/
def bytes_to_bits (src : List Nat) (offset length : Nat) : List Nat :=
  (List.range (length * 8)).map
    (fun p => (src.getD (offset + p / 8) 0 >>> (7 - p % 8)) &&& 1)

/-- `RDCDecompressor.ensure_capacity`: grow to
`max(capacity, 2 * len)` zeros when `capacity >= len`. -/
def ensure_capacity (src : List Nat) (capacity : Nat) : List Nat :=
  if src.length ≤ capacity then
    src ++ List.replicate (max capacity (2 * src.length) - src.length) 0
  else src

/-- `RDCDecompressor.is_short_rle`. -/
def is_short_rle (first_byte_of_cb : Nat) : Bool :=
  [0x00, 0x01, 0x02, 0x03, 0x04, 0x05].contains first_byte_of_cb

/-- `RDCDecompressor.is_single_byte_marker`. -/
def is_single_byte_marker (first_byte_of_cb : Nat) : Bool :=
  [0x02, 0x04, 0x06, 0x08, 0x0A].contains first_byte_of_cb

/-- `RDCDecompressor.is_two_bytes_marker`. -/
def is_two_bytes_marker (double_bytes_cb : List Nat) : Bool :=
  double_bytes_cb.length == 2 && ((double_bytes_cb.getD 0 0 >>> 4) &&& 0xF) > 2

/-- `RDCDecompressor.is_three_bytes_marker`. -/
def is_three_bytes_marker (three_byte_marker : List Nat) : Bool :=
  let flag := three_byte_marker.getD 0 0 >>> 4
  three_byte_marker.length == 3 && [1, 2].contains (flag &&& 0xF)

/-- `RDCDecompressor.get_length_of_rle_pattern`. -/
def get_length_of_rle_pattern (first_byte_of_cb : Nat) : Nat :=
  if first_byte_of_cb ≤ 0x05 then first_byte_of_cb + 3 else 0

/-- `RDCDecompressor.get_length_of_one_byte_pattern`. -/
def get_length_of_one_byte_pattern (first_byte_of_cb : Nat) : Nat :=
  if is_single_byte_marker first_byte_of_cb then first_byte_of_cb + 14 else 0

/-- `RDCDecompressor.get_length_of_two_bytes_pattern`. -/
def get_length_of_two_bytes_pattern (double_bytes_cb : List Nat) : Nat :=
  (double_bytes_cb.getD 0 0 >>> 4) &&& 0xF

/-- `RDCDecompressor.get_length_of_three_bytes_pattern`. -/
def get_length_of_three_bytes_pattern (p_type : Nat) (three_byte_marker : List Nat) :
    Nat :=
  if p_type = 1 then
    19 + (three_byte_marker.getD 0 0 &&& 0xF) + three_byte_marker.getD 1 0 * 16
  else if p_type = 2 then three_byte_marker.getD 2 0 + 16
  else 0

/-- `RDCDecompressor.get_offset_for_one_byte_pattern`. -/
def get_offset_for_one_byte_pattern (first_byte_of_cb : Nat) : Nat :=
  if first_byte_of_cb = 0x08 then 24
  else if first_byte_of_cb = 0x0A then 40
  else 0

/-- `RDCDecompressor.get_offset_for_two_bytes_pattern`. -/
def get_offset_for_two_bytes_pattern (double_bytes_cb : List Nat) : Nat :=
  3 + (double_bytes_cb.getD 0 0 &&& 0xF) + double_bytes_cb.getD 1 0 * 16

/-- `RDCDecompressor.get_offset_for_three_bytes_pattern`. -/
def get_offset_for_three_bytes_pattern (triple_bytes_cb : List Nat) : Nat :=
  3 + (triple_bytes_cb.getD 0 0 &&& 0xF) + triple_bytes_cb.getD 1 0 * 16

/-- `RDCDecompressor.clone_byte`. -/
def clone_byte (b length : Nat) : List Nat := List.replicate length b

/-- Condition of the one-byte back-reference branch
(`decompress_row` lines 265-266): the marker is a single-byte marker and
the following byte's two nibbles differ. -/
def single_byte_condition (marker_byte next_byte : Nat) : Bool :=
  is_single_byte_marker marker_byte &&
    !((next_byte &&& 0xF0) == ((next_byte <<< 4) &&& 0xF0))

/-- Inner `for bit_index in xrange(16)` loop of
`RDCDecompressor.decompress_row` (lines 241-330), iterating over the
prefix bits.  Returns the updated `(src_offset, out_offset, out_row)`;
all three `break` statements return to the outer loop the same way, and
`none` marks the one place Python can raise (writing one past a buffer
the doubling of `ensure_capacity` failed to cover). -/
def rdc_inner (src : List Nat) :
    List Nat → Nat → Nat → List Nat → Option (Nat × Nat × List Nat)
  | [], srcOff, outOff, out => some (srcOff, outOff, out)
  | bit :: restBits, srcOff, outOff, out =>
    if src.length ≤ srcOff then some (srcOff, outOff, out)
    else if bit = 0 then
      let out1 := ensure_capacity out outOff
      if outOff < out1.length then
        rdc_inner src restBits (srcOff + 1) (outOff + 1)
          (out1.set outOff (src.getD srcOff 0))
      else none
    else
      let marker_byte := src.getD srcOff 0
      match src.get? (srcOff + 1) with
      | none => some (srcOff, outOff, out)
      | some next_byte =>
        if is_short_rle marker_byte then
          let length := get_length_of_rle_pattern marker_byte
          let out1 := ensure_capacity out (outOff + length)
          let out2 := pySetSlice out1 outOff (outOff + length)
            (clone_byte next_byte length)
          rdc_inner src restBits (srcOff + 2) (outOff + length) out2
        else if single_byte_condition marker_byte next_byte then
          let length := get_length_of_one_byte_pattern marker_byte
          let out1 := ensure_capacity out (outOff + length)
          let back_offset := get_offset_for_one_byte_pattern marker_byte
          let pattern := pyGetSlice out1 ((outOff : Int) - back_offset)
            ((outOff : Int) - back_offset + length)
          let out2 := pySetSlice out1 outOff (outOff + length) pattern
          rdc_inner src restBits (srcOff + 1) (outOff + length) out2
        else
          let two_bytes_marker := pyGetSlice src srcOff ((srcOff : Int) + 2)
          if is_two_bytes_marker two_bytes_marker then
            let length := get_length_of_two_bytes_pattern two_bytes_marker
            let out1 := ensure_capacity out (outOff + length)
            let back_offset := get_offset_for_two_bytes_pattern two_bytes_marker
            let pattern := pyGetSlice out1 ((outOff : Int) - back_offset)
              ((outOff : Int) - back_offset + length)
            let out2 := pySetSlice out1 outOff (outOff + length) pattern
            rdc_inner src restBits (srcOff + 2) (outOff + length) out2
          else
            let three_bytes_marker := pyGetSlice src srcOff ((srcOff : Int) + 3)
            if is_three_bytes_marker three_bytes_marker then
              let p_type := (three_bytes_marker.getD 0 0 >>> 4) &&& 0x0F
              let back_offset :=
                if p_type = 2 then
                  get_offset_for_three_bytes_pattern three_bytes_marker
                else 0
              let length := get_length_of_three_bytes_pattern p_type
                three_bytes_marker
              let out1 := ensure_capacity out (outOff + length)
              let pattern :=
                if p_type = 1 then clone_byte (three_bytes_marker.getD 2 0) length
                else pyGetSlice out1 ((outOff : Int) - back_offset)
                  ((outOff : Int) - back_offset + length)
              let out2 := pySetSlice out1 outOff (outOff + length) pattern
              rdc_inner src restBits (srcOff + 3) (outOff + length) out2
            else some (srcOff, outOff, out)

/-- Outer `while src_offset < len(src_row) - 2` loop of
`RDCDecompressor.decompress_row`.  Every iteration advances `src_offset`
by at least 2, so fuel `len(src) + 1` always suffices. -/
def rdc_outer (src : List Nat) : Nat → Nat → Nat → List Nat → Option (List Nat)
  | fuel, srcOff, outOff, out =>
    if srcOff + 2 < src.length then
      match fuel with
      | 0 => none
      | fuel + 1 =>
        let prefix_bits := bytes_to_bits src srcOff 2
        match rdc_inner src prefix_bits (srcOff + 2) outOff out with
        | none => none
        | some (s, o, ou) => rdc_outer src fuel s o ou
    else some out

/-- `RDCDecompressor.decompress_row(offset, length, result_length, page)`
(lines 233-331). -/
def rdc_decompress_row (offset length result_length : Int) (page : List Nat) :
    Option (List Nat) :=
  let src_row := pyGetSlice page offset (offset + length)
  rdc_outer src_row (src_row.length + 1) 0 0 (List.replicate result_length.toNat 0)

/-!
Header and page geometry (`SASHeader`, lines 1070-1345).
-/

inductive PlatformKind where
  | unix
  | windows
  | unknown
deriving DecidableEq

/-- u64 detection (`SASHeader.__init__` lines 1204-1206): the byte at
`ALIGN_1_OFFSET = 32` equals `'3'` (0x33). -/
def header_u64 (h : List Nat) : Bool :=
  pyGetSlice h 32 33 == [0x33]

/-- Platform classification (`SASHeader.__init__` lines 1232-1237): the
byte at `PLATFORM_OFFSET = 39` is `'1'` for unix, `'2'` for windows. -/
def header_platform (h : List Nat) : PlatformKind :=
  if pyGetSlice h 39 40 == [0x31] then .unix
  else if pyGetSlice h 39 40 == [0x32] then .windows
  else .unknown

/-- `ProcessingSubheader.int_length` (line 795): `8 if u64 else 4`. -/
def int_length (u64 : Bool) : Int := if u64 then 8 else 4

/-- The word width of a parsed header: the integer/pointer field size
used by every subheader handler, determined by the u64 flag alone. -/
def word_width (h : List Nat) : Int := int_length (header_u64 h)

/-- `SASHeader.PAGE_BIT_OFFSET` (lines 1337-1340). -/
def page_bit_offset (u64 : Bool) : Int := if u64 then 32 else 16

/-- `SASHeader.SUBHEADER_POINTER_LENGTH` (lines 1342-1345). -/
def subheader_pointer_length (u64 : Bool) : Int := if u64 then 24 else 12

/-- Local `length = 8 if u64 else 4` of `read_subheader_signature` and
`process_subheader_pointers` (lines 1428, 1440). -/
def signature_length (u64 : Bool) : Int := if u64 then 8 else 4

def PAGE_META_TYPE : Int := 0

def PAGE_DATA_TYPE : Int := 256

def PAGE_MIX_TYPE : List Int := [512, 640]

def SUBHEADER_POINTERS_OFFSET : Int := 8

def TRUNCATED_SUBHEADER_ID : Int := 1

def COMPRESSED_SUBHEADER_ID : Int := 4

def COMPRESSED_SUBHEADER_TYPE : Int := 1

/-!
Reader state (`SAS7BDAT` attributes plus `SASProperties`).
-/

inductive Compression where
  | rle
  | rdc
deriving DecidableEq

inductive ColType where
  | number
  | string
deriving DecidableEq

/-- `Column` (lines 739-749). -/
structure Column where
  col_id : Nat
  name : List Nat
  label : List Nat
  format : List Nat
  type : ColType
  length : Int
deriving DecidableEq

/-- `SubheaderPointer` (lines 752-758). -/
structure SubheaderPointer where
  offset : Int
  length : Int
  compression : Int
  ptype : Int
deriving DecidableEq

/-- The fields of `SASProperties` the row phase reads or writes. -/
structure SASProps where
  u64 : Bool
  endianess : Endian
  row_length : Int
  row_count : Int
  mix_page_row_count : Int
  column_count : Int
  compression : Option Compression
deriving DecidableEq

/-- Mutable `SAS7BDAT` reader state during the row phase.  The file is
modelled as the list of `page_length`-byte chunks not yet consumed
(`remaining_pages`); `current_row_in_file_index` is only ever touched by
`readlines` itself and is modelled as that loop's counter. -/
structure RState where
  props : SASProps
  column_names_strings : List (List Nat)
  column_names : List (List Nat)
  column_types : List ColType
  column_data_offsets : List Int
  column_data_lengths : List Int
  columns : List Column
  current_column_number : Nat
  cached_page : List Nat
  current_page_type : Int
  current_page_block_count : Int
  current_page_subheaders_count : Int
  current_row_on_page_index : Nat
  current_page_data_subheader_pointers : List SubheaderPointer
  current_row : List Cell
  remaining_pages : List (List Nat)
deriving DecidableEq

/-- Bytes of `'SASYZCRL'` (`SAS7BDAT.RLE_COMPRESSION`). -/
def RLE_COMPRESSION : List Nat := [83, 65, 83, 89, 90, 67, 82, 76]

/-- Bytes of `'SASYZCR2'` (`SAS7BDAT.RDC_COMPRESSION`). -/
def RDC_COMPRESSION : List Nat := [83, 65, 83, 89, 90, 67, 82, 50]

/-- Python substring test `sub in hay`. -/
def listContainsSub (hay sub : List Nat) : Bool :=
  (List.range (hay.length + 1)).any
    (fun i => (hay.drop i).take sub.length == sub)

/-- `SAS7BDAT.TIME_FORMAT_STRINGS` (default construction). -/
def TIME_FORMAT_STRINGS : List (List Nat) := [[84, 73, 77, 69]]

/-- `SAS7BDAT.DATE_TIME_FORMAT_STRINGS`. -/
def DATE_TIME_FORMAT_STRINGS : List (List Nat) :=
  [[68, 65, 84, 69, 84, 73, 77, 69]]

/-- `SAS7BDAT.DATE_FORMAT_STRINGS`:
YYMMDD, MMDDYY, DDMMYY, DATE, JULIAN, MONYY. -/
def DATE_FORMAT_STRINGS : List (List Nat) :=
  [[89, 89, 77, 77, 68, 68], [77, 77, 68, 68, 89, 89], [68, 68, 77, 77, 89, 89],
   [68, 65, 84, 69], [74, 85, 76, 73, 65, 78], [77, 79, 78, 89, 89]]

/-!
Row projector (`SAS7BDAT._process_byte_array_with_data`, lines 628-679).
-/

/-- Cell decode for one column (the body of the projector's `for` loop,
lines 642-678). -/
def pba_cell (e : Endian) (col : Column) (tmp : List Nat) (length : Int) :
    Option Cell :=
  if col.type = ColType.number then
    if length ≤ 2 then do
      let v ← read_val_h e tmp length
      pure (Cell.int v)
    else
      let fmt := col.format
      if fmt = [] then read_val_number e tmp length
      else if TIME_FORMAT_STRINGS.contains fmt then read_val_time e tmp length
      else if DATE_TIME_FORMAT_STRINGS.contains fmt then
        read_val_datetime e tmp length
      else if DATE_FORMAT_STRINGS.contains fmt then read_val_date e tmp length
      else read_val_number e tmp length
  else do
    let s ← read_val_s tmp length
    pure (Cell.str s)

/-- Column loop of `_process_byte_array_with_data`: `i` counts from 0 for
`column_count` iterations; a zero `column_data_lengths[i]` breaks. -/
def pba_loop (st : RState) (source : List Nat) (offset : Int) :
    Nat → Nat → List Cell → Option (List Cell)
  | 0, _, acc => some acc
  | n + 1, i, acc =>
    match st.column_data_lengths.get? i with
    | none => none
    | some dlen =>
      if dlen = 0 then some acc
      else
        match st.column_data_offsets.get? i, st.columns.get? i with
        | some doff, some col =>
          let start := offset + doff
          let tmp := pyGetSlice source start (start + dlen)
          match pba_cell st.props.endianess col tmp dlen with
          | none => none
          | some c => pba_loop st source offset n (i + 1) (acc ++ [c])
        | _, _ => none

/-- `SAS7BDAT._process_byte_array_with_data(offset, length)`: decompress
when the dataset is compressed and the slice is shorter than a row, then
project the columns. -/
def process_byte_array_with_data (st : RState) (offset length : Int) :
    Option (List Cell) :=
  if st.props.compression ≠ none ∧ length < st.props.row_length then
    match st.props.compression with
    | some Compression.rle =>
      match rle_decompress_row offset length st.props.row_length st.cached_page with
      | none => none
      | some source => pba_loop st source 0 st.props.column_count.toNat 0 []
    | some Compression.rdc =>
      match rdc_decompress_row offset length st.props.row_length st.cached_page with
      | none => none
      | some source => pba_loop st source 0 st.props.column_count.toNat 0 []
    | none => none
  else pba_loop st st.cached_page offset st.props.column_count.toNat 0 []

/-!
Metadata subheader handlers (`ProcessingSubheader` subclasses,
lines 801-1043).  Each is a state transformer returning `none` where the
Python handler raises.
-/

/-- `RowSizeSubheader.process_subheader` (lines 801-828): read
`row_length`, `row_count` and `mix_page_row_count` at payload offsets
`5*W`, `6*W` and `15*W`, filling each property only while it is zero. -/
def row_size_process_subheader (st : RState) (offset length : Int) :
    Option RState :=
  let int_len := int_length st.props.u64
  let v_rl := pyGetSlice st.cached_page (offset + 5 * int_len)
    (offset + 5 * int_len + int_len)
  let v_rc := pyGetSlice st.cached_page (offset + 6 * int_len)
    (offset + 6 * int_len + int_len)
  let v_mx := pyGetSlice st.cached_page (offset + 15 * int_len)
    (offset + 15 * int_len + int_len)
  do
    let st ←
      if st.props.row_length = 0 then do
        let v ← read_val_i st.props.u64 st.props.endianess v_rl int_len
        pure { st with props := { st.props with row_length := v } }
      else pure st
    let st ←
      if st.props.row_count = 0 then do
        let v ← read_val_i st.props.u64 st.props.endianess v_rc int_len
        pure { st with props := { st.props with row_count := v } }
      else pure st
    if st.props.mix_page_row_count = 0 then do
      let v ← read_val_i st.props.u64 st.props.endianess v_mx int_len
      pure { st with props := { st.props with mix_page_row_count := v } }
    else pure st

/-- `ColumnSizeSubheader.process_subheader` (lines 831-839). -/
def column_size_process_subheader (st : RState) (offset length : Int) :
    Option RState :=
  let int_len := int_length st.props.u64
  let offset1 := offset + int_len
  let v := pyGetSlice st.cached_page offset1 (offset1 + int_len)
  do
    let c ← read_val_i st.props.u64 st.props.endianess v int_len
    pure { st with props := { st.props with column_count := c } }

/-- `SubheaderCountsSubheader.process_subheader` (lines 842-844): no-op. -/
def subheader_counts_process_subheader (st : RState) (offset length : Int) :
    Option RState :=
  some st

/-- `ColumnListSubheader.process_subheader` (lines 1034-1036): no-op. -/
def column_list_process_subheader (st : RState) (offset length : Int) :
    Option RState :=
  some st

/-- `ColumnTextSubheader.process_subheader` (lines 847-870): append the
text blob; on the first blob, scan for a compression literal.  The source
iterates the two-element set `COMPRESSION_LITERALS`; the two literals
differ in their last byte so at most one can match a realistic blob, and
the model checks RLE before RDC. -/
def column_text_process_subheader (st : RState) (offset length : Int) :
    Option RState :=
  let int_len := int_length st.props.u64
  let offset1 := offset + int_len
  let v := pyGetSlice st.cached_page offset1 (offset1 + 2)
  do
    let text_block_size ← read_val_h st.props.endianess v 2
    let v2 := pyGetSlice st.cached_page offset1 (offset1 + text_block_size)
    let blob ← read_val_s v2 text_block_size
    let st := { st with column_names_strings := st.column_names_strings ++ [blob] }
    if st.column_names_strings.length = 1 then
      let compression_literal :=
        if listContainsSub blob RLE_COMPRESSION then some Compression.rle
        else if listContainsSub blob RDC_COMPRESSION then some Compression.rdc
        else none
      pure { st with props := { st.props with compression := compression_literal } }
    else pure st

/-- One iteration of the `ColumnNameSubheader.process_subheader` loop
(lines 877-911): read the text-subheader index and the name's offset and
length, then index `column_names_strings` with the raw (unclamped)
index — an out-of-range index raises. -/
def column_name_pointer (st : RState) (offset1 : Int) (i : Nat) :
    Option RState :=
  let text_subheader := offset1 + 8 * ((i : Int) + 1) + 0
  let col_name_offset := offset1 + 8 * ((i : Int) + 1) + 2
  let col_name_length := offset1 + 8 * ((i : Int) + 1) + 4
  do
    let idx ← read_val_h st.props.endianess
      (pyGetSlice st.cached_page text_subheader (text_subheader + 2)) 2
    let col_offset ← read_val_h st.props.endianess
      (pyGetSlice st.cached_page col_name_offset (col_name_offset + 2)) 2
    let col_len ← read_val_h st.props.endianess
      (pyGetSlice st.cached_page col_name_length (col_name_length + 2)) 2
    let name_str ← pyIdx st.column_names_strings idx
    pure { st with column_names :=
      st.column_names ++ [pyGetSlice name_str col_offset (col_offset + col_len)] }

/-- Loop driver of `ColumnNameSubheader.process_subheader`. -/
def column_name_go (offset1 : Int) : Nat → Nat → RState → Option RState
  | 0, _, st => some st
  | n + 1, i, st => do
    let st1 ← column_name_pointer st offset1 i
    column_name_go offset1 n (i + 1) st1

/-- `ColumnNameSubheader.process_subheader` (lines 873-911): the pointer
count is `(length - 2*W - 12) // 8` (Python floor division). -/
def column_name_process_subheader (st : RState) (offset length : Int) :
    Option RState :=
  let int_len := int_length st.props.u64
  let offset1 := offset + int_len
  let count := (length - 2 * int_len - 12).fdiv 8
  column_name_go offset1 count.toNat 0 st

/-- One iteration of `ColumnAttributesSubheader.process_subheader`
(lines 920-949). -/
def column_attributes_vector (st : RState) (offset : Int) (i : Nat) :
    Option RState :=
  let int_len := int_length st.props.u64
  let col_data_offset := offset + int_len + 8 + (i : Int) * (int_len + 8)
  let col_data_len := offset + 2 * int_len + 8 + (i : Int) * (int_len + 8)
  let col_types := offset + 2 * int_len + 14 + (i : Int) * (int_len + 8)
  do
    let x ← read_val_i st.props.u64 st.props.endianess
      (pyGetSlice st.cached_page col_data_offset (col_data_offset + int_len))
      int_len
    let l ← read_val_i st.props.u64 st.props.endianess
      (pyGetSlice st.cached_page col_data_len (col_data_len + 4)) 4
    let ctype ← read_val_b st.props.endianess
      (pyGetSlice st.cached_page col_types (col_types + 1)) 1
    pure { st with
      column_data_offsets := st.column_data_offsets ++ [x],
      column_data_lengths := st.column_data_lengths ++ [l],
      column_types := st.column_types ++
        [if ctype = 1 then ColType.number else ColType.string] }

/-- Loop driver of `ColumnAttributesSubheader.process_subheader`. -/
def column_attributes_go (offset : Int) : Nat → Nat → RState → Option RState
  | 0, _, st => some st
  | n + 1, i, st => do
    let st1 ← column_attributes_vector st offset i
    column_attributes_go offset n (i + 1) st1

/-- `ColumnAttributesSubheader.process_subheader` (lines 914-949): the
vector count is `(length - 2*W - 12) // (W + 8)`. -/
def column_attributes_process_subheader (st : RState) (offset length : Int) :
    Option RState :=
  let int_len := int_length st.props.u64
  let count := (length - 2 * int_len - 12).fdiv (int_len + 8)
  column_attributes_go offset count.toNat 0 st

/-- `FormatAndLabelSubheader.process_subheader` (lines 952-1031): the two
text-subheader indices are clamped with
`min(idx, len(column_names_strings) - 1)`; the assembled `Column` takes
its name and type at position `len(columns)` and its data length at
position `current_column_number`. -/
def format_and_label_process_subheader (st : RState) (offset length : Int) :
    Option RState :=
  let int_len := int_length st.props.u64
  let e := st.props.endianess
  let p := st.cached_page
  let text_subheader_format := offset + 22 + 3 * int_len
  let col_format_offset := offset + 24 + 3 * int_len
  let col_format_len := offset + 26 + 3 * int_len
  let text_subheader_label := offset + 28 + 3 * int_len
  let col_label_offset := offset + 30 + 3 * int_len
  let col_label_len := offset + 32 + 3 * int_len
  do
    let f_raw ← read_val_h e
      (pyGetSlice p text_subheader_format (text_subheader_format + 2)) 2
    let format_idx := min f_raw ((st.column_names_strings.length : Int) - 1)
    let format_start ← read_val_h e
      (pyGetSlice p col_format_offset (col_format_offset + 2)) 2
    let format_len ← read_val_h e
      (pyGetSlice p col_format_len (col_format_len + 2)) 2
    let l_raw ← read_val_h e
      (pyGetSlice p text_subheader_label (text_subheader_label + 2)) 2
    let label_idx := min l_raw ((st.column_names_strings.length : Int) - 1)
    let label_start ← read_val_h e
      (pyGetSlice p col_label_offset (col_label_offset + 2)) 2
    let label_len ← read_val_h e
      (pyGetSlice p col_label_len (col_label_len + 2)) 2
    let label_names ← pyIdx st.column_names_strings label_idx
    let column_label := pyGetSlice label_names label_start
      (label_start + label_len)
    let format_names ← pyIdx st.column_names_strings format_idx
    let column_format := pyGetSlice format_names format_start
      (format_start + format_len)
    let name ← st.column_names.get? st.columns.length
    let ctype ← st.column_types.get? st.columns.length
    let dlen ← st.column_data_lengths.get? st.current_column_number
    pure { st with
      columns := st.columns ++
        [{ col_id := st.current_column_number, name := name,
           label := column_label, format := column_format,
           type := ctype, length := dlen }],
      current_column_number := st.current_column_number + 1 }

/-- `DataSubheader.process_subheader` (lines 1039-1043). -/
def data_process_subheader (st : RState) (offset length : Int) :
    Option RState := do
  let row ← process_byte_array_with_data st offset length
  pure { st with current_row := row }

/-!
Subheader dispatch (`SASHeader`, lines 1083-1466).
-/

inductive SubheaderIndex where
  | row_size
  | column_size
  | subheader_counts
  | column_text
  | column_name
  | column_attributes
  | format_and_label
  | column_list
  | data
deriving DecidableEq

/-- `SASHeader.SUBHEADER_SIGNATURE_TO_INDEX` (lines 1083-1112). -/
def subheader_signature_to_index (sig : List Nat) : Option SubheaderIndex :=
  match sig with
  | [0xF7, 0xF7, 0xF7, 0xF7] => some .row_size
  | [0x00, 0x00, 0x00, 0x00, 0xF7, 0xF7, 0xF7, 0xF7] => some .row_size
  | [0xF7, 0xF7, 0xF7, 0xF7, 0x00, 0x00, 0x00, 0x00] => some .row_size
  | [0xF6, 0xF6, 0xF6, 0xF6] => some .column_size
  | [0x00, 0x00, 0x00, 0x00, 0xF6, 0xF6, 0xF6, 0xF6] => some .column_size
  | [0xF6, 0xF6, 0xF6, 0xF6, 0x00, 0x00, 0x00, 0x00] => some .column_size
  | [0x00, 0xFC, 0xFF, 0xFF] => some .subheader_counts
  | [0xFF, 0xFF, 0xFC, 0x00] => some .subheader_counts
  | [0x00, 0xFC, 0xFF, 0xFF, 0xFF, 0xFF, 0xFF, 0xFF] => some .subheader_counts
  | [0xFF, 0xFF, 0xFF, 0xFF, 0xFF, 0xFF, 0xFC, 0x00] => some .subheader_counts
  | [0xFD, 0xFF, 0xFF, 0xFF] => some .column_text
  | [0xFF, 0xFF, 0xFF, 0xFD] => some .column_text
  | [0xFD, 0xFF, 0xFF, 0xFF, 0xFF, 0xFF, 0xFF, 0xFF] => some .column_text
  | [0xFF, 0xFF, 0xFF, 0xFF, 0xFF, 0xFF, 0xFF, 0xFD] => some .column_text
  | [0xFF, 0xFF, 0xFF, 0xFF] => some .column_name
  | [0xFF, 0xFF, 0xFF, 0xFF, 0xFF, 0xFF, 0xFF, 0xFF] => some .column_name
  | [0xFC, 0xFF, 0xFF, 0xFF] => some .column_attributes
  | [0xFF, 0xFF, 0xFF, 0xFC] => some .column_attributes
  | [0xFC, 0xFF, 0xFF, 0xFF, 0xFF, 0xFF, 0xFF, 0xFF] => some .column_attributes
  | [0xFF, 0xFF, 0xFF, 0xFF, 0xFF, 0xFF, 0xFF, 0xFC] => some .column_attributes
  | [0xFE, 0xFB, 0xFF, 0xFF] => some .format_and_label
  | [0xFF, 0xFF, 0xFB, 0xFE] => some .format_and_label
  | [0xFE, 0xFB, 0xFF, 0xFF, 0xFF, 0xFF, 0xFF, 0xFF] => some .format_and_label
  | [0xFF, 0xFF, 0xFF, 0xFF, 0xFF, 0xFF, 0xFB, 0xFE] => some .format_and_label
  | [0xFE, 0xFF, 0xFF, 0xFF] => some .column_list
  | [0xFF, 0xFF, 0xFF, 0xFE] => some .column_list
  | [0xFE, 0xFF, 0xFF, 0xFF, 0xFF, 0xFF, 0xFF, 0xFF] => some .column_list
  | [0xFF, 0xFF, 0xFF, 0xFF, 0xFF, 0xFF, 0xFF, 0xFE] => some .column_list
  | _ => none

/-- `SASHeader.get_subheader_class` (lines 1431-1437): an unrecognized
signature on a compressed dataset with compression flag 0 or 4 and type
flag 1 is treated as a data subheader. -/
def get_subheader_class (props_compression : Option Compression)
    (sig : List Nat) (compression ptype : Int) : Option SubheaderIndex :=
  let index := subheader_signature_to_index sig
  if props_compression ≠ none ∧ index = none ∧
      (compression = COMPRESSED_SUBHEADER_ID ∨ compression = 0) ∧
      ptype = COMPRESSED_SUBHEADER_TYPE then
    some .data
  else index

/-- `SASHeader.read_subheader_signature` (lines 1427-1429). -/
def read_subheader_signature (st : RState) (offset : Int) : List Nat :=
  pyGetSlice st.cached_page offset (offset + signature_length st.props.u64)

/-- `SASHeader.process_subheader_pointers` (lines 1439-1466). -/
def process_subheader_pointers (st : RState) (offset : Int)
    (subheader_pointer_index : Nat) : Option SubheaderPointer :=
  let length := signature_length st.props.u64
  let spl := subheader_pointer_length st.props.u64
  let total_offset := offset + spl * (subheader_pointer_index : Int)
  do
    let o ← read_val_i st.props.u64 st.props.endianess
      (pyGetSlice st.cached_page total_offset (total_offset + length)) length
    let l ← read_val_i st.props.u64 st.props.endianess
      (pyGetSlice st.cached_page (total_offset + length)
        (total_offset + 2 * length)) length
    let c ← read_val_b st.props.endianess
      (pyGetSlice st.cached_page (total_offset + 2 * length)
        (total_offset + 2 * length + 1)) 1
    let t ← read_val_b st.props.endianess
      (pyGetSlice st.cached_page (total_offset + 2 * length + 1)
        (total_offset + 2 * length + 2)) 1
    pure { offset := o, length := l, compression := c, ptype := t }

/-- `SUBHEADER_INDEX_TO_CLASS` dispatch (lines 1113-1123) applied to a
pointer's payload. -/
def process_subheader_by_index (idx : SubheaderIndex) (st : RState)
    (offset length : Int) : Option RState :=
  match idx with
  | .row_size => row_size_process_subheader st offset length
  | .column_size => column_size_process_subheader st offset length
  | .subheader_counts => subheader_counts_process_subheader st offset length
  | .column_text => column_text_process_subheader st offset length
  | .column_name => column_name_process_subheader st offset length
  | .column_attributes => column_attributes_process_subheader st offset length
  | .format_and_label => format_and_label_process_subheader st offset length
  | .column_list => column_list_process_subheader st offset length
  | .data => data_process_subheader st offset length

/-- Loop of `SASHeader.process_page_metadata` (lines 1393-1425): walk the
subheader pointer table, skip truncated pointers, dispatch recognized
subheaders, and collect data-subheader pointers. -/
def process_page_metadata_go (bit_offset : Int) :
    Nat → Nat → RState → Option RState
  | 0, _, st => some st
  | n + 1, i, st => do
    let pointer ← process_subheader_pointers st
      (SUBHEADER_POINTERS_OFFSET + bit_offset) i
    let st1 ←
      if pointer.compression ≠ TRUNCATED_SUBHEADER_ID then
        let sig := read_subheader_signature st pointer.offset
        match get_subheader_class st.props.compression sig pointer.compression
            pointer.ptype with
        | some idx =>
          if idx ≠ SubheaderIndex.data then
            process_subheader_by_index idx st pointer.offset pointer.length
          else
            some { st with current_page_data_subheader_pointers :=
              st.current_page_data_subheader_pointers ++ [pointer] }
        | none => some st
      else some st
    process_page_metadata_go bit_offset n (i + 1) st1

/-- `SASHeader.process_page_metadata`. -/
def process_page_metadata (st : RState) : Option RState :=
  process_page_metadata_go (page_bit_offset st.props.u64)
    st.current_page_subheaders_count.toNat 0 st

/-- `SASHeader.read_page_header` (lines 1364-1384). -/
def read_page_header (st : RState) : Option RState :=
  let bit_offset := page_bit_offset st.props.u64
  do
    let t ← read_val_h st.props.endianess
      (pyGetSlice st.cached_page (0 + bit_offset) (0 + bit_offset + 2)) 2
    let b ← read_val_h st.props.endianess
      (pyGetSlice st.cached_page (2 + bit_offset) (2 + bit_offset + 2)) 2
    let s ← read_val_h st.props.endianess
      (pyGetSlice st.cached_page (4 + bit_offset) (4 + bit_offset + 2)) 2
    pure { st with
      current_page_type := t,
      current_page_block_count := b,
      current_page_subheaders_count := s }

/-- Recursion of `SAS7BDAT._read_next_page` (lines 608-626): clear the
data pointer list, read the next `page_length` chunk (an empty read
returns with an empty cached page), parse the page header, process META
pages, and skip pages whose type is outside META/DATA/MIX.  Each
recursive call consumes one chunk, so fuel `remaining + 1` suffices. -/
def read_next_page_go : Nat → RState → Option RState
  | 0, _ => none
  | fuel + 1, st =>
    let st := { st with current_page_data_subheader_pointers := [] }
    match st.remaining_pages with
    | [] => some { st with cached_page := [] }
    | p :: rest =>
      let st := { st with cached_page := p, remaining_pages := rest }
      if p.length = 0 then some { st with cached_page := [] }
      else do
        let st ← read_page_header st
        let st ←
          if st.current_page_type = PAGE_META_TYPE then process_page_metadata st
          else some st
        if ([PAGE_META_TYPE, PAGE_DATA_TYPE] ++ PAGE_MIX_TYPE).contains
            st.current_page_type then
          some st
        else read_next_page_go fuel st

/-- `SAS7BDAT._read_next_page`. -/
def read_next_page (st : RState) : Option RState :=
  read_next_page_go (st.remaining_pages.length + 1) st

/-!
Row stream (`SAS7BDAT.readlines`, lines 528-606).
-/

/-- Row base used by `readlines` on a MIX page (lines 572-584): the
align correction adds `(bit_offset + pointers_offset + count*spl) % 8`. -/
def mix_row_base (u64 : Bool) (subheader_count row_on_page row_length : Int) :
    Int :=
  let bit_offset := page_bit_offset u64
  let spl := subheader_pointer_length u64
  let align_correction :=
    (bit_offset + SUBHEADER_POINTERS_OFFSET + subheader_count * spl) % 8
  bit_offset + SUBHEADER_POINTERS_OFFSET + align_correction +
    subheader_count * spl + row_on_page * row_length

/-- One iteration of the `while True` loop of `readlines` (lines 543-606)
after the row-count guard: every branch ends at the single
`yield self.current_row`, so a successful iteration returns the new state
and exactly one row. -/
def readlines_step (st : RState) : Option (RState × List Cell) :=
  if st.current_page_type = PAGE_META_TYPE then
    match st.current_page_data_subheader_pointers.get?
        st.current_row_on_page_index with
    | none => do
      let st1 ← read_next_page st
      let st2 := { st1 with current_row_on_page_index := 0 }
      pure (st2, st2.current_row)
    | some current_subheader_pointer => do
      let st1 := { st with current_row_on_page_index :=
        st.current_row_on_page_index + 1 }
      let st2 ← data_process_subheader st1 current_subheader_pointer.offset
        current_subheader_pointer.length
      let st3 ←
        if st2.current_row_on_page_index =
            st2.current_page_data_subheader_pointers.length then do
          let s ← read_next_page st2
          pure { s with current_row_on_page_index := 0 }
        else pure st2
      pure (st3, st3.current_row)
  else if PAGE_MIX_TYPE.contains st.current_page_type then do
    let row ← process_byte_array_with_data st
      (mix_row_base st.props.u64 st.current_page_subheaders_count
        (st.current_row_on_page_index : Int) st.props.row_length)
      st.props.row_length
    let st1 := { st with
      current_row := row,
      current_row_on_page_index := st.current_row_on_page_index + 1 }
    let st2 ←
      if (st1.current_row_on_page_index : Int) =
          min st1.props.row_count st1.props.mix_page_row_count then do
        let s ← read_next_page st1
        pure { s with current_row_on_page_index := 0 }
      else pure st1
    pure (st2, st2.current_row)
  else if st.current_page_type = PAGE_DATA_TYPE then do
    let row ← process_byte_array_with_data st
      (page_bit_offset st.props.u64 + SUBHEADER_POINTERS_OFFSET +
        (st.current_row_on_page_index : Int) * st.props.row_length)
      st.props.row_length
    let st1 := { st with
      current_row := row,
      current_row_on_page_index := st.current_row_on_page_index + 1 }
    let st2 ←
      if (st1.current_row_on_page_index : Int) = st1.current_page_block_count
      then do
        let s ← read_next_page st1
        pure { s with current_row_on_page_index := 0 }
      else pure st1
    pure (st2, st2.current_row)
  else pure (st, st.current_row)

/-- The `while True` loop of `readlines`: `i` is the loop's private
counter `current_row_in_file_index` (no other code touches it) and `rc`
is `row_count` as captured once before the loop (line 538); the counter
increases by exactly one per iteration, so the loop yields until `i`
reaches `rc` and fuel `(rc - i).toNat` is exact. -/
def readlines_go (rc : Int) : Nat → Int → RState → Option (List (List Cell))
  | fuel, i, st =>
    if rc ≤ i then some []
    else
      match fuel with
      | 0 => none
      | fuel + 1 => do
        let (st1, row) ← readlines_step st
        let rest ← readlines_go rc fuel (i + 1) st1
        pure (row :: rest)

/-- `SAS7BDAT.readlines` consumed to a list: yield the column names,
refill the page cache if empty (fresh position after the header), then
run the row loop.  `none` where any Python iteration raises. -/
def readlines_model (st : RState) : Option (List (List Cell)) :=
  let row_count := st.props.row_count
  let names := st.columns.map (fun x => Cell.str x.name)
  do
    let st1 ← if st.cached_page.isEmpty then read_next_page st else some st
    let rows ← readlines_go row_count row_count.toNat 0 st1
    pure (names :: rows)

/-- The byte stream of a list of literal-copy commands: each command is
its control byte followed by its payload. -/
def rleLitStream (cmds : List (Nat × List Nat)) : List Nat :=
  (cmds.map (fun cp => cp.1 :: cp.2)).flatten

/-- The concatenation of the payloads. -/
def rleLitPayloads (cmds : List (Nat × List Nat)) : List Nat :=
  (cmds.map (fun cp => cp.2)).flatten

/-- A literal-copy command: the control byte's high nibble is 0x8-0xB and
the payload has the exact length the opcode announces (`n1 + 1`,
`n1 + 17`, `n1 + 33` or `n1 + 49`, i.e. `ctrl - 127` bytes). -/
def RLELitWF (cmds : List (Nat × List Nat)) : Prop :=
  ∀ cp ∈ cmds, 128 ≤ cp.1 ∧ cp.1 < 192 ∧ cp.2.length = cp.1 - 127

/-- Specification-side definition of rounding an integer up to the next
multiple of 8, written from the words of the spec for comparison with
the align correction the code computes. -/
def spec_round_up_8 (x : Int) : Int := x + (8 - x % 8) % 8

/-- A one-string-column DATA-page reader state: two rows of one byte. -/
def stW : RState :=
  { props := { u64 := false
               endianess := .little
               row_length := 1
               row_count := 2
               mix_page_row_count := 0
               column_count := 1
               compression := none }
    column_names_strings := [[88]]
    column_names := [[88]]
    column_types := [.string]
    column_data_offsets := [0]
    column_data_lengths := [1]
    columns := [Column.mk 0 [88] [] [] .string 1]
    current_column_number := 1
    cached_page := List.replicate 16 0 ++ [0, 1, 2, 0, 0, 0, 0, 0, 65, 66]
    current_page_type := 256
    current_page_block_count := 2
    current_page_subheaders_count := 0
    current_row_on_page_index := 0
    current_page_data_subheader_pointers := []
    current_row := []
    remaining_pages := [] }

/-- A one-number-column state whose column is 2 bytes wide, holding
0xFFFF (the signed short -1). -/
def stNum2 : RState :=
  { props := { u64 := false
               endianess := .little
               row_length := 2
               row_count := 1
               mix_page_row_count := 0
               column_count := 1
               compression := none }
    column_names_strings := [[78]]
    column_names := [[78]]
    column_types := [.number]
    column_data_offsets := [0]
    column_data_lengths := [2]
    columns := [Column.mk 0 [78] [] [] .number 2]
    current_column_number := 1
    cached_page := [255, 255]
    current_page_type := 256
    current_page_block_count := 1
    current_page_subheaders_count := 0
    current_row_on_page_index := 0
    current_page_data_subheader_pointers := []
    current_row := []
    remaining_pages := [] }

/-- The analogous state with a 1-byte number column holding 7. -/
def stNum1 : RState :=
  { props := { u64 := false
               endianess := .little
               row_length := 1
               row_count := 1
               mix_page_row_count := 0
               column_count := 1
               compression := none }
    column_names_strings := [[78]]
    column_names := [[78]]
    column_types := [.number]
    column_data_offsets := [0]
    column_data_lengths := [1]
    columns := [Column.mk 0 [78] [] [] .number 1]
    current_column_number := 1
    cached_page := [7]
    current_page_type := 256
    current_page_block_count := 1
    current_page_subheaders_count := 0
    current_row_on_page_index := 0
    current_page_data_subheader_pointers := []
    current_row := []
    remaining_pages := [] }

/-- State for the format-and-label clamping witness: one text blob; the
page carries format index 5, format offset 1, format length 2, label
index 7, label offset 0, label length 1 at the handler's six read
positions for a 4-byte file. -/
def stFal : RState :=
  { props := { u64 := false
               endianess := .little
               row_length := 0
               row_count := 0
               mix_page_row_count := 0
               column_count := 1
               compression := none }
    column_names_strings := [[65, 66, 67]]
    column_names := [[88]]
    column_types := [.string]
    column_data_offsets := [0]
    column_data_lengths := [3]
    columns := []
    current_column_number := 0
    cached_page := List.replicate 34 0 ++ [5, 0, 1, 0, 2, 0, 7, 0, 0, 0, 1, 0]
    current_page_type := 0
    current_page_block_count := 0
    current_page_subheaders_count := 0
    current_row_on_page_index := 0
    current_page_data_subheader_pointers := []
    current_row := []
    remaining_pages := [] }

/-- State for the column-name counterexample: one text blob, and a
column-name pointer whose text-subheader index is 5. -/
def stCn : RState :=
  { props := { u64 := false
               endianess := .little
               row_length := 0
               row_count := 0
               mix_page_row_count := 0
               column_count := 1
               compression := none }
    column_names_strings := [[65]]
    column_names := []
    column_types := []
    column_data_offsets := []
    column_data_lengths := []
    columns := []
    current_column_number := 0
    cached_page := List.replicate 12 0 ++ [5, 0, 0, 0, 1, 0]
    current_page_type := 0
    current_page_block_count := 0
    current_page_subheaders_count := 0
    current_row_on_page_index := 0
    current_page_data_subheader_pointers := []
    current_row := []
    remaining_pages := [] }

/-- Row-size state: a u64 page holding `row_length = 1`, `row_count = 2`
and `mix_page_row_count = 3` at payload offsets 40, 48 and 120, with
zeros elsewhere, in particular at offsets 682 and 706. -/
def stRs : RState :=
  { props := { u64 := true
               endianess := .little
               row_length := 0
               row_count := 0
               mix_page_row_count := 0
               column_count := 0
               compression := none }
    column_names_strings := []
    column_names := []
    column_types := []
    column_data_offsets := []
    column_data_lengths := []
    columns := []
    current_column_number := 0
    cached_page := (((List.replicate 720 0).set 40 1).set 48 2).set 120 3
    current_page_type := 0
    current_page_block_count := 0
    current_page_subheaders_count := 0
    current_row_on_page_index := 0
    current_page_data_subheader_pointers := []
    current_row := []
    remaining_pages := [] }

/-- The same row-size state with different bytes at offsets 682 and 706
(where the spec places `lcs` and `lcp` for 8-byte files). -/
def stRs2 : RState :=
  { props := { u64 := true
               endianess := .little
               row_length := 0
               row_count := 0
               mix_page_row_count := 0
               column_count := 0
               compression := none }
    column_names_strings := []
    column_names := []
    column_types := []
    column_data_offsets := []
    column_data_lengths := []
    columns := []
    current_column_number := 0
    cached_page := (((((List.replicate 720 0).set 40 1).set 48 2).set
      120 3).set 682 99).set 706 123
    current_page_type := 0
    current_page_block_count := 0
    current_page_subheaders_count := 0
    current_row_on_page_index := 0
    current_page_data_subheader_pointers := []
    current_row := []
    remaining_pages := [] }

/-- The properties both row-size runs produce. -/
def rowSizeProps : SASProps :=
  { u64 := true
    endianess := .little
    row_length := 1
    row_count := 2
    mix_page_row_count := 3
    column_count := 0
    compression := none }

/-!
Helper lemmas about the Python list primitives.
-/

theorem pyIdx_nat {α : Type} (l : List α) (k : Nat) :
    pyIdx l (k : Int) = l.get? k := by
  simp [pyIdx]

theorem pyIdx_append_middle {α : Type} (pre l post : List α) (k : Nat)
    (hk : k < l.length) :
    pyIdx (pre ++ l ++ post) ((pre.length : Int) + k) = l.get? k := by
  have h1 : ((pre.length : Int) + k) = ((pre.length + k : Nat) : Int) := by omega
  rw [h1, pyIdx_nat, List.append_assoc]
  rw [List.get?_eq_getElem?, List.get?_eq_getElem?]
  rw [List.getElem?_append_right (by omega)]
  simp [List.getElem?_append_left hk]

theorem drop_append_middle {α : Type} (pre l : List α) (a : Nat) :
    (pre ++ l).drop (pre.length + a) = l.drop a := by
  rw [List.drop_append_eq_append_drop]
  simp

theorem take_append_left {α : Type} (l post : List α) (b : Nat)
    (hb : b ≤ l.length) : (l ++ post).take b = l.take b := by
  rw [List.take_append_eq_append_take]
  simp [Nat.sub_eq_zero_of_le hb]

theorem pyGetSlice_append_middle {α : Type} (pre l post : List α) (a b : Nat)
    (hab : a ≤ b) (hb : b ≤ l.length) :
    pyGetSlice (pre ++ l ++ post) ((pre.length : Int) + a) ((pre.length : Int) + b) =
      (l.drop a).take (b - a) := by
  have hlen : ((pre ++ l ++ post).length : Int) =
      (pre.length : Int) + l.length + post.length := by simp; ring
  unfold pyGetSlice
  simp only [hlen]
  rw [if_neg (by omega), if_neg (by omega)]
  have e1 : min (max ((pre.length : Int) + a) 0)
      ((pre.length : Int) + l.length + post.length) = (pre.length : Int) + a := by omega
  have e2 : min (max ((pre.length : Int) + b) 0)
      ((pre.length : Int) + l.length + post.length) = (pre.length : Int) + b := by omega
  rw [e1, e2]
  have t1 : ((pre.length : Int) + a).toNat = pre.length + a := by omega
  have t2 : ((pre.length : Int) + b).toNat = pre.length + b := by omega
  rw [t1, t2]
  rw [List.append_assoc, drop_append_middle]
  have hdrop : (l ++ post).drop a = l.drop a ++ post := by
    rw [List.drop_append_eq_append_drop]
    simp [Nat.sub_eq_zero_of_le (le_trans hab hb)]
  rw [hdrop]
  rw [take_append_left _ _ _ (by simp; omega)]
  congr 1
  omega

/-!
RLE literal-copy commands (opcodes 0x8-0xB): well-formedness and the
stream layout.
-/

theorem land240_of_lt : ∀ c < 256, c &&& 240 = c / 16 * 16 := by decide

theorem land15_of_lt : ∀ c < 256, c &&& 15 = c % 16 := by decide

theorem rle_go_lit_step (page : List Nat) (offset : Int) (length fuel i : Nat)
    (c : Nat) (hread : pyIdx page (offset + (i : Int)) = some c)
    (h128 : 128 ≤ c) (h192 : c < 192) (hi : i < length)
    (hcount : c - 127 ≤ length - (i + 1)) :
    rle_go page offset length (fuel + 1) i =
      match rle_go page offset length fuel (i + (c - 127) + 1) with
      | none => none
      | some rest =>
          some (pyGetSlice page (offset + (i : Int) + 1)
            (offset + (i : Int) + 1 + ((c - 127 : Nat) : Int)) ++ rest) := by
  have e240 : c &&& 240 = c / 16 * 16 := land240_of_lt c (by omega)
  have e15 : c &&& 15 = c % 16 := land15_of_lt c (by omega)
  have hq : c / 16 = 8 ∨ c / 16 = 9 ∨ c / 16 = 10 ∨ c / 16 = 11 := by omega
  simp only [rle_go, if_neg (by omega : ¬ length ≤ i), hread]
  rcases hq with h | h | h | h
  · have hcb : c &&& 240 = 128 := by rw [e240, h]
    have hce : (c &&& 15) + 1 = c - 127 := by rw [e15]; omega
    have hmin : min ((c &&& 15) + 1) (length - (i + 1)) = c - 127 := by
      rw [hce]; exact Nat.min_eq_left hcount
    simp only [hcb]
    rw [if_neg (by decide), if_neg (by decide), if_neg (by decide), if_neg (by decide), if_pos (by trivial), hmin]
  · have hcb : c &&& 240 = 144 := by rw [e240, h]
    have hce : (c &&& 15) + 17 = c - 127 := by rw [e15]; omega
    have hmin : min ((c &&& 15) + 17) (length - (i + 1)) = c - 127 := by
      rw [hce]; exact Nat.min_eq_left hcount
    simp only [hcb]
    rw [if_neg (by decide), if_neg (by decide), if_neg (by decide), if_neg (by decide), if_neg (by decide), if_pos (by trivial), hmin]
  · have hcb : c &&& 240 = 160 := by rw [e240, h]
    have hce : (c &&& 15) + 33 = c - 127 := by rw [e15]; omega
    have hmin : min ((c &&& 15) + 33) (length - (i + 1)) = c - 127 := by
      rw [hce]; exact Nat.min_eq_left hcount
    simp only [hcb]
    rw [if_neg (by decide), if_neg (by decide), if_neg (by decide), if_neg (by decide), if_neg (by decide), if_neg (by decide), if_pos (by trivial), hmin]
  · have hcb : c &&& 240 = 176 := by rw [e240, h]
    have hce : (c &&& 15) + 49 = c - 127 := by rw [e15]; omega
    have hmin : min ((c &&& 15) + 49) (length - (i + 1)) = c - 127 := by
      rw [hce]; exact Nat.min_eq_left hcount
    simp only [hcb]
    rw [if_neg (by decide), if_neg (by decide), if_neg (by decide), if_neg (by decide), if_neg (by decide), if_neg (by decide), if_neg (by decide), if_pos (by trivial), hmin]

theorem pyIdx_middle_pos {α : Type} (pre l post : List α) (x : Int) (k : Nat)
    (hx : x = (pre.length : Int) + k) (hk : k < l.length) :
    pyIdx (pre ++ l ++ post) x = l.get? k := by
  rw [hx]; exact pyIdx_append_middle pre l post k hk

theorem pyGetSlice_middle_pos {α : Type} (pre l post : List α) (x y : Int)
    (a b : Nat) (hx : x = (pre.length : Int) + a) (hy : y = (pre.length : Int) + b)
    (hab : a ≤ b) (hb : b ≤ l.length) :
    pyGetSlice (pre ++ l ++ post) x y = (l.drop a).take (b - a) := by
  rw [hx, hy]; exact pyGetSlice_append_middle pre l post a b hab hb

theorem rle_go_lit_cmds (post : List Nat) (offset : Int) (length : Nat) :
    ∀ (cmds : List (Nat × List Nat)), RLELitWF cmds →
    ∀ (pre : List Nat) (i fuel : Nat),
      offset + (i : Int) = pre.length →
      length = i + (rleLitStream cmds).length →
      (rleLitStream cmds).length ≤ fuel →
      rle_go (pre ++ rleLitStream cmds ++ post) offset length fuel i =
        some (rleLitPayloads cmds) := by
  intro cmds
  induction cmds with
  | nil =>
    intro _ pre i fuel hoff hlen hfuel
    have hil : length ≤ i := by
      rw [hlen]; simp [rleLitStream]
    cases fuel with
    | zero => simp [rle_go, if_pos hil, rleLitPayloads]
    | succ f => simp [rle_go, if_pos hil, rleLitPayloads]
  | cons cp rest ih =>
    intro hwf pre i fuel hoff hlen hfuel
    obtain ⟨c, pl⟩ := cp
    have hwfc := hwf (c, pl) (List.mem_cons_self _ _)
    have h128 : 128 ≤ c := hwfc.1
    have h192 : c < 192 := hwfc.2.1
    have hpl : pl.length = c - 127 := hwfc.2.2
    have hwfrest : RLELitWF rest := fun x hx => hwf x (List.mem_cons_of_mem _ hx)
    have hstream : rleLitStream ((c, pl) :: rest) =
        c :: (pl ++ rleLitStream rest) := by
      simp [rleLitStream]
    have hslen : (rleLitStream ((c, pl) :: rest)).length =
        1 + pl.length + (rleLitStream rest).length := by
      rw [hstream]; simp; omega
    have hplpos : 1 ≤ pl.length := by omega
    have hi : i < length := by omega
    cases fuel with
    | zero => omega
    | succ f =>
      have hread : pyIdx (pre ++ rleLitStream ((c, pl) :: rest) ++ post)
          (offset + (i : Int)) = some c := by
        rw [pyIdx_middle_pos pre (rleLitStream ((c, pl) :: rest)) post _ 0
          (by rw [hoff]; simp) (by omega)]
        rw [hstream]
        rfl
      have hcount : c - 127 ≤ length - (i + 1) := by omega
      rw [rle_go_lit_step _ _ _ f _ _ hread h128 h192 hi hcount]
      have hpage2 : pre ++ rleLitStream ((c, pl) :: rest) ++ post =
          (pre ++ [c]) ++ (pl ++ rleLitStream rest) ++ post := by
        rw [hstream]; simp
      have hchunk : pyGetSlice (pre ++ rleLitStream ((c, pl) :: rest) ++ post)
          (offset + (i : Int) + 1) (offset + (i : Int) + 1 + ((c - 127 : Nat) : Int)) =
          pl := by
        rw [hpage2]
        rw [pyGetSlice_middle_pos (pre ++ [c]) (pl ++ rleLitStream rest)
          post _ _ 0 (c - 127)
          (by simp; omega) (by simp; omega) (by omega) (by simp; omega)]
        rw [List.drop_zero, Nat.sub_zero, ← hpl, List.take_left]
      have hpage3 : pre ++ rleLitStream ((c, pl) :: rest) ++ post =
          (pre ++ c :: pl) ++ rleLitStream rest ++ post := by
        rw [hstream]; simp
      have hrec : rle_go (pre ++ rleLitStream ((c, pl) :: rest) ++ post) offset
          length f (i + (c - 127) + 1) = some (rleLitPayloads rest) := by
        rw [hpage3]
        exact ih hwfrest (pre ++ c :: pl) (i + (c - 127) + 1) f
          (by simp; omega) (by omega) (by omega)
      rw [hrec, hchunk]
      have : rleLitPayloads ((c, pl) :: rest) = pl ++ rleLitPayloads rest := by
        simp [rleLitPayloads]
      rw [this]

/-- C1: a source stream consisting solely of RLE literal-copy commands
(control bytes with high nibble 0x8-0xB, each followed by its exact
literal payload) whose copy lengths sum to `row_length` decompresses to
exactly the concatenation of the payload bytes, in order. -/
theorem rle_literal_copy_identity (cmds : List (Nat × List Nat))
    (pre post : List Nat) (result_length : Int) (hwf : RLELitWF cmds)
    (hsum : ((rleLitPayloads cmds).length : Int) = result_length) :
    rle_decompress_row (pre.length : Int) ((rleLitStream cmds).length : Int)
      result_length (pre ++ rleLitStream cmds ++ post) =
      some (rleLitPayloads cmds) := by
  unfold rle_decompress_row
  have h1 : ((rleLitStream cmds).length : Int).toNat = (rleLitStream cmds).length := by
    omega
  rw [h1]
  exact rle_go_lit_cmds post _ _ cmds hwf pre 0 ((rleLitStream cmds).length + 1)
    (by simp) (by simp) (by omega)

/-- Witness for `rle_literal_copy_identity`: two literal commands,
`0x81 [10, 20]` and `0x80 [7]`. -/
theorem rle_literal_copy_identity_witness :
    RLELitWF [(129, [10, 20]), (128, [7])] ∧
    rle_decompress_row ((List.length ([] : List Nat)) : Int)
      ((rleLitStream [(129, [10, 20]), (128, [7])]).length : Int) 3
      ([] ++ rleLitStream [(129, [10, 20]), (128, [7])] ++ []) =
      some (rleLitPayloads [(129, [10, 20]), (128, [7])]) :=
  ⟨by unfold RLELitWF; decide, rle_literal_copy_identity [(129, [10, 20]), (128, [7])] [] [] 3
    (by unfold RLELitWF; decide) (by decide)⟩

/-- C5 counterexample: both decompressors can return a buffer whose
length differs from `result_length`.  `RLEDecompressor.decompress_row`
on the empty input stream returns an empty buffer although
`result_length` is 1.  `RDCDecompressor.decompress_row` on the stream
`80 00 03 AA` (prefix bits 1000...; one short-RLE marker 0x03 filling
3 + 3 = 6 bytes of 0xAA) grows its 2-byte output buffer to 6 bytes and
returns all 6, although `result_length` is 2. -/
theorem decompressor_result_length_counterexample :
    (rle_decompress_row 0 0 1 []).map List.length = some 0 ∧
    ¬ (rle_decompress_row 0 0 1 []).map List.length = some 1 ∧
    (rdc_decompress_row 0 4 2 [128, 0, 3, 170]).map List.length = some 6 ∧
    ¬ (rdc_decompress_row 0 4 2 [128, 0, 3, 170]).map List.length = some 2 := by
  decide

/-- C5 amended: neither decompressor is guaranteed to return a buffer
of length exactly `result_length`: `RLEDecompressor.decompress_row` can
return fewer bytes (an empty input yields an empty buffer whatever
`result_length` is) and `RDCDecompressor.decompress_row` can return
more (a pattern written past `result_length` grows the output buffer,
which is returned whole — second conjunct).  For an RLE input
consisting solely of literal-copy commands whose payload lengths sum to
`result_length`, the output length is exactly `result_length` (first
conjunct). -/
theorem decompressors_result_length :
    (∀ (cmds : List (Nat × List Nat)) (pre post : List Nat)
      (result_length : Int), RLELitWF cmds →
      ((rleLitPayloads cmds).length : Int) = result_length →
      ∃ out, rle_decompress_row (pre.length : Int)
          ((rleLitStream cmds).length : Int) result_length
          (pre ++ rleLitStream cmds ++ post) = some out ∧
        (out.length : Int) = result_length) ∧
    (∃ (offset length result_length : Int) (page out : List Nat),
      rdc_decompress_row offset length result_length page = some out ∧
      result_length < (out.length : Int)) := by
  constructor
  · intro cmds pre post result_length hwf hsum
    refine ⟨rleLitPayloads cmds, ?_, hsum⟩
    unfold rle_decompress_row
    have h1 : ((rleLitStream cmds).length : Int).toNat =
        (rleLitStream cmds).length := by
      omega
    rw [h1]
    exact rle_go_lit_cmds post _ _ cmds hwf pre 0 ((rleLitStream cmds).length + 1)
      (by simp) (by simp) (by omega)
  · exact ⟨0, 4, 2, [128, 0, 3, 170], List.replicate 6 170, by decide, by decide⟩

/-- Witness for `decompressors_result_length`: its RLE conjunct applied
to one `0x90` command with a 17-byte payload. -/
theorem decompressors_result_length_witness :
    RLELitWF [(144, List.replicate 17 5)] ∧
    ∃ out, rle_decompress_row ((List.length ([] : List Nat)) : Int)
        ((rleLitStream [(144, List.replicate 17 5)]).length : Int) 17
        ([] ++ rleLitStream [(144, List.replicate 17 5)] ++ []) = some out ∧
      (out.length : Int) = 17 :=
  ⟨by unfold RLELitWF; decide,
   decompressors_result_length.1 [(144, List.replicate 17 5)] [] [] 17
     (by unfold RLELitWF; decide) (by decide)⟩

/-- C10: when the slice handed to `RDCDecompressor.decompress_row` holds
at most 2 bytes, the outer loop never runs and the result is
`result_length` zero bytes. -/
theorem rdc_short_input_zero_row (offset length result_length : Int)
    (page : List Nat)
    (h : (pyGetSlice page offset (offset + length)).length ≤ 2) :
    rdc_decompress_row offset length result_length page =
      some (List.replicate result_length.toNat 0) := by
  unfold rdc_decompress_row
  rw [rdc_outer]
  rw [if_neg (by omega)]

/-- Witness for `rdc_short_input_zero_row`: a 2-byte input and
`result_length = 3`. -/
theorem rdc_short_input_zero_row_witness :
    (pyGetSlice [1, 2] 0 (0 + 2)).length ≤ 2 ∧
    rdc_decompress_row 0 2 3 [1, 2] = some (List.replicate (3 : Int).toNat 0) :=
  ⟨by decide, rdc_short_input_zero_row 0 2 3 [1, 2] (by decide)⟩

/-- C6 counterexample: marker byte 0x06 also satisfies the one-byte
back-reference branch condition of `RDCDecompressor.decompress_row`
(with next byte 0x12, whose nibbles differ), although 0x06 is neither
0x08 nor 0x0A; decompressing a concrete stream shows the branch run:
the 0x06 marker emits 0x06 + 14 = 20 bytes (a copy from offset
`out - 0`) before the two literals land at positions 20 and 21. -/
theorem rdc_single_byte_marker_counterexample :
    is_short_rle 6 = false ∧
    single_byte_condition 6 18 = true ∧
    ¬ (6 = 8 ∨ 6 = 10) ∧
    rdc_decompress_row 0 5 24 [128, 0, 6, 18, 65] =
      some (List.replicate 20 0 ++ [18, 65, 0, 0]) := by decide

/-- C6 amended: a marker that reaches the single-byte test (that is, one
that is not a short-RLE marker) is treated as a one-byte back-reference
exactly when its first byte is 0x06, 0x08 or 0x0A and the following
byte's nibbles differ; the pattern length is `first + 14` and the copy
source is output offset `out - 24` for 0x08, `out - 40` for 0x0A and
`out - 0` for 0x06. -/
theorem rdc_single_byte_marker_dispatch (m n : Nat)
    (h : is_short_rle m = false) :
    (single_byte_condition m n = true ↔
      ((m = 6 ∨ m = 8 ∨ m = 10) ∧
        ¬ (n &&& 0xF0) = ((n <<< 4) &&& 0xF0))) ∧
    ((m = 6 ∨ m = 8 ∨ m = 10) → get_length_of_one_byte_pattern m = m + 14) ∧
    get_offset_for_one_byte_pattern 8 = 24 ∧
    get_offset_for_one_byte_pattern 10 = 40 ∧
    get_offset_for_one_byte_pattern 6 = 0 := by
  have h' : ¬ (m = 0 ∨ m = 1 ∨ m = 2 ∨ m = 3 ∨ m = 4 ∨ m = 5) := by
    simpa [is_short_rle] using h
  refine ⟨?_, ?_, by decide, by decide, by decide⟩
  · by_cases hn : (n &&& 0xF0) = ((n <<< 4) &&& 0xF0)
    · simp [single_byte_condition, hn]
    · have hb : ((n &&& 0xF0) == ((n <<< 4) &&& 0xF0)) = false := by
        simp [hn]
      simp only [single_byte_condition, hb, Bool.not_false, Bool.and_true,
        is_single_byte_marker]
      simp only [List.contains_eq_any_beq, List.any_cons, List.any_nil,
        Bool.or_false, Bool.or_eq_true, beq_iff_eq]
      constructor
      · intro hm
        exact ⟨by omega, hn⟩
      · intro hm
        omega
  · rintro hm
    have hsingle : is_single_byte_marker m = true := by
      rcases hm with h6 | h8 | h10 <;> subst_vars <;> decide
    simp [get_length_of_one_byte_pattern, hsingle]

/-- Witness for `rdc_single_byte_marker_dispatch` at marker 6, next
byte 18. -/
theorem rdc_single_byte_marker_dispatch_witness :
    (single_byte_condition 6 18 = true ↔
      ((6 = 6 ∨ 6 = 8 ∨ 6 = 10) ∧ ¬ (18 &&& 0xF0) = ((18 <<< 4) &&& 0xF0))) ∧
    ((6 = 6 ∨ 6 = 8 ∨ 6 = 10) → get_length_of_one_byte_pattern 6 = 6 + 14) ∧
    get_offset_for_one_byte_pattern 8 = 24 ∧
    get_offset_for_one_byte_pattern 10 = 40 ∧
    get_offset_for_one_byte_pattern 6 = 0 :=
  rdc_single_byte_marker_dispatch 6 18 (by decide)

/-- C4: on a MIX page the row base the code computes (bit offset plus
pointer-table offset plus align correction plus pointer-table size plus
`row_on_page * row_length`) equals the pointer-table end rounded up to a
multiple of 8 plus `row_on_page * row_length`, for every subheader
count, with the bit offset in 16/32 and the pointer length in 12/24 per
word width. -/
theorem mix_row_base_rounds_up (u64 : Bool)
    (subheader_count row_on_page row_length : Int) :
    mix_row_base u64 subheader_count row_on_page row_length =
      spec_round_up_8 (page_bit_offset u64 + SUBHEADER_POINTERS_OFFSET +
        subheader_count * subheader_pointer_length u64) +
      row_on_page * row_length ∧
    spec_round_up_8 (page_bit_offset u64 + SUBHEADER_POINTERS_OFFSET +
      subheader_count * subheader_pointer_length u64) % 8 = 0 ∧
    page_bit_offset u64 + SUBHEADER_POINTERS_OFFSET +
      subheader_count * subheader_pointer_length u64 ≤
      spec_round_up_8 (page_bit_offset u64 + SUBHEADER_POINTERS_OFFSET +
        subheader_count * subheader_pointer_length u64) ∧
    (page_bit_offset u64 = 16 ∨ page_bit_offset u64 = 32) ∧
    (subheader_pointer_length u64 = 12 ∨ subheader_pointer_length u64 = 24) := by
  cases u64 <;>
    (simp [mix_row_base, spec_round_up_8, page_bit_offset,
        subheader_pointer_length, SUBHEADER_POINTERS_OFFSET]
     generalize row_on_page * row_length = t
     omega)

/-- C3 counterexample: a header whose byte 32 is `'3'` and whose
platform byte 39 is `'2'` (windows) still yields word width 8, not 4. -/
theorem word_width_platform_counterexample :
    word_width (((List.replicate 288 0).set 32 51).set 39 50) = 8 ∧
    header_platform (((List.replicate 288 0).set 32 51).set 39 50) =
      PlatformKind.windows := by decide

/-- C3 amended: the word width is 8 exactly when header byte 32 equals
`'3'` (0x33), for every platform; only byte 32 matters (two headers that
agree on that byte have the same word width), and otherwise the width
is 4. -/
theorem word_width_from_byte32 (h1 h2 : List Nat) :
    (pyGetSlice h1 32 33 = pyGetSlice h2 32 33 →
      word_width h1 = word_width h2) ∧
    (word_width h1 = 8 ↔ pyGetSlice h1 32 33 = [0x33]) ∧
    (word_width h1 = 8 ∨ word_width h1 = 4) := by
  refine ⟨?_, ?_, ?_⟩
  · intro he
    simp [word_width, header_u64, int_length, he]
  · by_cases hb : pyGetSlice h1 32 33 = [51]
    · simp [word_width, header_u64, int_length, hb]
    · have hbf : (pyGetSlice h1 32 33 == [51]) = false := by
        simpa using hb
      simp [word_width, header_u64, int_length, hbf, hb]
  · by_cases hb : pyGetSlice h1 32 33 = [51]
    · simp [word_width, header_u64, int_length, hb]
    · have hbf : (pyGetSlice h1 32 33 == [51]) = false := by
        simpa using hb
      simp [word_width, header_u64, int_length, hbf]

/-- Witness for `word_width_from_byte32`: two headers agreeing on byte
32 but with different platform bytes. -/
theorem word_width_from_byte32_witness :
    word_width ((List.replicate 288 0).set 32 51) =
      word_width (((List.replicate 288 0).set 32 51).set 39 49) ∧
    (word_width ((List.replicate 288 0).set 32 51) = 8 ↔
      pyGetSlice ((List.replicate 288 0).set 32 51) 32 33 = [0x33]) :=
  ⟨(word_width_from_byte32 ((List.replicate 288 0).set 32 51)
      (((List.replicate 288 0).set 32 51).set 39 49)).1 (by decide),
   (word_width_from_byte32 ((List.replicate 288 0).set 32 51)
      (((List.replicate 288 0).set 32 51).set 39 49)).2.1⟩

theorem readlines_go_length : ∀ (fuel : Nat) (rc i : Int) (st : RState)
    (out : List (List Cell)), readlines_go rc fuel i st = some out →
    out.length = min fuel (rc - i).toNat := by
  intro fuel
  induction fuel with
  | zero =>
    intro rc i st out h
    rw [readlines_go] at h
    by_cases hge : rc ≤ i
    · rw [if_pos hge] at h
      cases h
      simp
    · rw [if_neg hge] at h
      exact absurd h (by simp)
  | succ f ih =>
    intro rc i st out h
    rw [readlines_go] at h
    by_cases hge : rc ≤ i
    · rw [if_pos hge] at h
      cases h
      simp only [List.length_nil]
      omega
    · rw [if_neg hge] at h
      cases hstep : readlines_step st with
      | none => rw [hstep] at h; simp at h
      | some pr =>
        obtain ⟨st1, row⟩ := pr
        rw [hstep] at h
        simp at h
        cases hrest : readlines_go rc f (i + 1) st1 with
        | none =>
          rw [hrest] at h
          simp at h
        | some rest =>
          rw [hrest] at h
          simp at h
          have hlen := ih rc (i + 1) st1 rest hrest
          rw [← h]
          simp only [List.length_cons, hlen]
          omega

/-- C2: whenever the row iterator completes without an exception, it
yields the column-name list followed by exactly `row_count` data rows
(the loop counter increases by one per yielded row and the loop stops
at the row count captured before the loop). -/
theorem readlines_yields_row_count (st : RState) (out : List (List Cell))
    (h : readlines_model st = some out) :
    out.length = st.props.row_count.toNat + 1 := by
  unfold readlines_model at h
  by_cases hc : st.cached_page.isEmpty
  · rw [if_pos hc] at h
    cases hrnp : read_next_page st with
    | none => rw [hrnp] at h; simp at h
    | some st1 =>
      rw [hrnp] at h
      simp at h
      cases hgo : readlines_go st.props.row_count st.props.row_count.toNat 0 st1 with
      | none => rw [hgo] at h; simp at h
      | some rows =>
        rw [hgo] at h
        simp at h
        have hlen := readlines_go_length _ _ _ _ _ hgo
        rw [← h]
        simp only [List.length_cons, hlen]
        omega
  · rw [if_neg hc] at h
    simp at h
    cases hgo : readlines_go st.props.row_count st.props.row_count.toNat 0 st with
    | none => rw [hgo] at h; simp at h
    | some rows =>
      rw [hgo] at h
      simp at h
      have hlen := readlines_go_length _ _ _ _ _ hgo
      rw [← h]
      simp only [List.length_cons, hlen]
      omega

theorem pba_loop_prefix (st : RState) (src : List Nat) (off : Int) :
    ∀ (n i : Nat) (acc out : List Cell),
      pba_loop st src off n i acc = some out → ∃ t, out = acc ++ t := by
  intro n
  induction n with
  | zero =>
    intro i acc out h
    rw [pba_loop] at h
    cases h
    exact ⟨[], by simp⟩
  | succ m ih =>
    intro i acc out h
    rw [pba_loop] at h
    cases hd : st.column_data_lengths.get? i with
    | none => rw [hd] at h; exact absurd h (by simp)
    | some dlen =>
      rw [hd] at h
      dsimp only at h
      by_cases hz : dlen = 0
      · rw [if_pos hz] at h
        cases h
        exact ⟨[], by simp⟩
      · rw [if_neg hz] at h
        cases ho : st.column_data_offsets.get? i with
        | none => rw [ho] at h; simp at h
        | some doff =>
          cases hc : st.columns.get? i with
          | none => rw [ho, hc] at h; simp at h
          | some col =>
            rw [ho, hc] at h
            simp only at h
            cases hcell : pba_cell st.props.endianess col
                (pyGetSlice src (off + doff) (off + doff + dlen)) dlen with
            | none => rw [hcell] at h; simp at h
            | some c =>
              rw [hcell] at h
              obtain ⟨t, ht⟩ := ih (i + 1) (acc ++ [c]) out h
              exact ⟨[c] ++ t, by simp [ht]⟩

theorem mem_pyGetSlice {α : Type} (l : List α) (a b : Int) (x : α)
    (hx : x ∈ pyGetSlice l a b) : x ∈ l := by
  unfold pyGetSlice at hx
  exact List.mem_of_mem_drop (List.mem_of_mem_take hx)

theorem signedOfBytes_two_bounds (e : Endian) (b : List Nat)
    (hb : b.length = 2) (hbyte : ∀ x ∈ b, x < 256) :
    -32768 ≤ signedOfBytes e b ∧ signedOfBytes e b < 32768 := by
  obtain ⟨x, y, hxy⟩ := List.length_eq_two.mp hb
  subst hxy
  have hx : x < 256 := hbyte x (by simp)
  have hy : y < 256 := hbyte y (by simp)
  cases e <;>
    (simp only [signedOfBytes, unsignedOfBytes, List.foldr, List.foldl,
      List.length_cons, List.length_nil]
     norm_num
     omega)

/-- C7 amended: a `number` column with `byte_length = 2` (the first
column here) decodes as the two's-complement signed 16-bit value of its
two cell bytes whenever the row projector completes; a `byte_length` of
1 makes `struct.unpack('h', ...)` raise instead (see the
counterexample). -/
theorem number_width2_reads_signed16 (st : RState) (offset length : Int)
    (doff : Int) (col : Column) (out : List Cell)
    (hcomp : st.props.compression = none)
    (hcol : st.columns.get? 0 = some col)
    (hty : col.type = ColType.number)
    (hdlen : st.column_data_lengths.get? 0 = some 2)
    (hdoff : st.column_data_offsets.get? 0 = some doff)
    (hcc : 1 ≤ st.props.column_count.toNat)
    (hbyte : ∀ x ∈ st.cached_page, x < 256)
    (hout : process_byte_array_with_data st offset length = some out) :
    ∃ v, out.get? 0 = some (Cell.int v) ∧
      v = signedOfBytes st.props.endianess
        (pyGetSlice (pyGetSlice st.cached_page (offset + doff)
          (offset + doff + 2)) 0 2) ∧
      -32768 ≤ v ∧ v < 32768 := by
  unfold process_byte_array_with_data at hout
  rw [if_neg (by simp [hcomp])] at hout
  obtain ⟨n, hn⟩ : ∃ n, st.props.column_count.toNat = n + 1 :=
    ⟨st.props.column_count.toNat - 1, by omega⟩
  rw [hn, pba_loop, hdlen] at hout
  dsimp only at hout
  rw [if_neg (by omega), hdoff, hcol] at hout
  simp only at hout
  set tmp := pyGetSlice st.cached_page (offset + doff) (offset + doff + 2)
    with htmp
  cases hrv : read_val_h st.props.endianess tmp 2 with
  | none =>
    have hcell : pba_cell st.props.endianess col tmp 2 = none := by
      unfold pba_cell
      rw [if_pos hty, if_pos (by omega), hrv]
      rfl
    rw [hcell] at hout
    exact absurd hout (by simp)
  | some v =>
    have hcell : pba_cell st.props.endianess col tmp 2 = some (Cell.int v) := by
      unfold pba_cell
      rw [if_pos hty, if_pos (by omega), hrv]
      rfl
    rw [hcell] at hout
    dsimp only at hout
    obtain ⟨t, ht⟩ := pba_loop_prefix st st.cached_page offset n 1
      ([] ++ [Cell.int v]) out hout
    have hb2 : (pyGetSlice tmp 0 2).length = 2 ∧
        v = signedOfBytes st.props.endianess (pyGetSlice tmp 0 2) := by
      rw [read_val_h] at hrv
      by_cases hl : (pyGetSlice tmp 0 2).length = 2
      · rw [if_pos hl] at hrv
        cases hrv
        exact ⟨hl, rfl⟩
      · rw [if_neg hl] at hrv
        cases hrv
    have hbound := signedOfBytes_two_bounds st.props.endianess
      (pyGetSlice tmp 0 2) hb2.1
      (fun x hx => hbyte x (mem_pyGetSlice _ _ _ _ (mem_pyGetSlice _ _ _ _ hx)))
    refine ⟨v, ?_, ?_, ?_, ?_⟩
    · rw [ht]; rfl
    · rw [hb2.2]
    · rw [hb2.2]
      exact hbound.1
    · rw [hb2.2]
      exact hbound.2

theorem pyIdx_last {α : Type} (l : List α) (h : 1 ≤ l.length) :
    pyIdx l ((l.length : Int) - 1) = l.get? (l.length - 1) := by
  unfold pyIdx
  rw [if_neg (by omega)]
  congr 1
  omega

/-- C8 amended: only the format-and-label handler clamps its two
text-subheader indices: when both decoded indices exceed
`len(column_text_blobs) - 1`, both are clamped to the last blob and the
handler completes, appending a column whose format and label substrings
come from that last blob.  The column-name handler dereferences its
index unclamped and raises when it is out of range (see the
counterexample). -/
theorem format_and_label_clamps (st : RState) (offset length : Int)
    (fi fs fl li ls ll dl : Int) (nm lastBlob : List Nat) (ty : ColType)
    (hblob : 1 ≤ st.column_names_strings.length)
    (hlast : st.column_names_strings.get? (st.column_names_strings.length - 1) =
      some lastBlob)
    (hfi : read_val_h st.props.endianess (pyGetSlice st.cached_page
      (offset + 22 + 3 * int_length st.props.u64)
      (offset + 22 + 3 * int_length st.props.u64 + 2)) 2 = some fi)
    (hfi_big : (st.column_names_strings.length : Int) - 1 < fi)
    (hfs : read_val_h st.props.endianess (pyGetSlice st.cached_page
      (offset + 24 + 3 * int_length st.props.u64)
      (offset + 24 + 3 * int_length st.props.u64 + 2)) 2 = some fs)
    (hfl : read_val_h st.props.endianess (pyGetSlice st.cached_page
      (offset + 26 + 3 * int_length st.props.u64)
      (offset + 26 + 3 * int_length st.props.u64 + 2)) 2 = some fl)
    (hli : read_val_h st.props.endianess (pyGetSlice st.cached_page
      (offset + 28 + 3 * int_length st.props.u64)
      (offset + 28 + 3 * int_length st.props.u64 + 2)) 2 = some li)
    (hli_big : (st.column_names_strings.length : Int) - 1 < li)
    (hls : read_val_h st.props.endianess (pyGetSlice st.cached_page
      (offset + 30 + 3 * int_length st.props.u64)
      (offset + 30 + 3 * int_length st.props.u64 + 2)) 2 = some ls)
    (hll : read_val_h st.props.endianess (pyGetSlice st.cached_page
      (offset + 32 + 3 * int_length st.props.u64)
      (offset + 32 + 3 * int_length st.props.u64 + 2)) 2 = some ll)
    (hname : st.column_names.get? st.columns.length = some nm)
    (hty : st.column_types.get? st.columns.length = some ty)
    (hdl : st.column_data_lengths.get? st.current_column_number = some dl) :
    format_and_label_process_subheader st offset length = some { st with
      columns := st.columns ++ [Column.mk st.current_column_number nm
        (pyGetSlice lastBlob ls (ls + ll))
        (pyGetSlice lastBlob fs (fs + fl)) ty dl],
      current_column_number := st.current_column_number + 1 } := by
  have hminf : min fi ((st.column_names_strings.length : Int) - 1) =
      (st.column_names_strings.length : Int) - 1 :=
    min_eq_right (le_of_lt hfi_big)
  have hminl : min li ((st.column_names_strings.length : Int) - 1) =
      (st.column_names_strings.length : Int) - 1 :=
    min_eq_right (le_of_lt hli_big)
  have hidx : pyIdx st.column_names_strings
      ((st.column_names_strings.length : Int) - 1) = some lastBlob := by
    rw [pyIdx_last st.column_names_strings hblob, hlast]
  unfold format_and_label_process_subheader
  dsimp only
  simp only [hfi, hfs, hfl, hli, hls, hll, Option.bind_eq_bind, Option.some_bind,
    hminf, hminl, hidx, hname, hty, hdl]
  rfl

/-- C9 amended: the row-size handler reads exactly three values — words
at payload offsets `5*W`, `6*W` and `15*W` decoded as `row_length`,
`row_count` and `mix_page_row_count` — and nothing else; in particular
no `lcs`/`lcp` shorts at offsets 682/706 or 354/378 (see the
counterexample, where those bytes change nothing). -/
theorem row_size_reads_three (st : RState) (offset length : Int)
    (rl rc mx : Int)
    (hrl0 : st.props.row_length = 0)
    (hrc0 : st.props.row_count = 0)
    (hmx0 : st.props.mix_page_row_count = 0)
    (h1 : read_val_i st.props.u64 st.props.endianess (pyGetSlice st.cached_page
      (offset + 5 * int_length st.props.u64)
      (offset + 5 * int_length st.props.u64 + int_length st.props.u64))
      (int_length st.props.u64) = some rl)
    (h2 : read_val_i st.props.u64 st.props.endianess (pyGetSlice st.cached_page
      (offset + 6 * int_length st.props.u64)
      (offset + 6 * int_length st.props.u64 + int_length st.props.u64))
      (int_length st.props.u64) = some rc)
    (h3 : read_val_i st.props.u64 st.props.endianess (pyGetSlice st.cached_page
      (offset + 15 * int_length st.props.u64)
      (offset + 15 * int_length st.props.u64 + int_length st.props.u64))
      (int_length st.props.u64) = some mx) :
    row_size_process_subheader st offset length = some { st with
      props := { st.props with
        row_length := rl, row_count := rc, mix_page_row_count := mx } } := by
  unfold row_size_process_subheader
  dsimp only
  rw [if_pos hrl0]
  simp only [h1, Option.pure_def, Option.bind_eq_bind, Option.some_bind]
  rw [if_pos hrc0]
  simp only [h2, Option.pure_def, Option.bind_eq_bind, Option.some_bind]
  rw [if_pos hmx0]
  simp only [h3, Option.pure_def, Option.bind_eq_bind, Option.some_bind]

/-!
Concrete states for the witnesses and counterexamples.
-/

/-- Witness for `readlines_yields_row_count`: the DATA-page state above
yields the name row and then exactly `row_count = 2` rows. -/
theorem readlines_yields_row_count_witness :
    readlines_model stW = some [[Cell.str [88]], [Cell.str [65]], [Cell.str [66]]] ∧
    ([[Cell.str [88]], [Cell.str [65]], [Cell.str [66]]] : List (List Cell)).length =
      stW.props.row_count.toNat + 1 :=
  ⟨by decide, readlines_yields_row_count stW _ (by decide)⟩

/-- Witness for `number_width2_reads_signed16`: the 0xFFFF cell decodes
to -1. -/
theorem number_width2_reads_signed16_witness :
    ∃ v, ([Cell.int (-1)] : List Cell).get? 0 = some (Cell.int v) ∧
      v = signedOfBytes stNum2.props.endianess
        (pyGetSlice (pyGetSlice stNum2.cached_page ((0 : Int) + 0)
          ((0 : Int) + 0 + 2)) 0 2) ∧
      -32768 ≤ v ∧ v < 32768 :=
  number_width2_reads_signed16 stNum2 0 2 0 (Column.mk 0 [78] [] [] .number 2)
    [Cell.int (-1)] (by decide) (by decide) (by decide) (by decide) (by decide)
    (by decide) (by decide) (by decide)

/-- C7 counterexample: a `number` column of byte length 1 does not
decode as an integer; `struct.unpack('h', ...)` needs exactly 2 bytes,
so the row projector raises (returns `none`) instead of returning the
cell value 7. -/
theorem number_width1_raises_counterexample :
    stNum1.columns.get? 0 = some (Column.mk 0 [78] [] [] .number 1) ∧
    stNum1.column_data_lengths.get? 0 = some 1 ∧
    process_byte_array_with_data stNum1 0 1 = none := by decide

/-- Witness for `format_and_label_clamps`: indices 5 and 7 with a single
text blob are both clamped to blob 0. -/
theorem format_and_label_clamps_witness :
    format_and_label_process_subheader stFal 0 0 = some { stFal with
      columns := stFal.columns ++ [Column.mk stFal.current_column_number [88]
        (pyGetSlice [65, 66, 67] 0 (0 + 1)) (pyGetSlice [65, 66, 67] 1 (1 + 2))
        ColType.string 3],
      current_column_number := stFal.current_column_number + 1 } :=
  format_and_label_clamps stFal 0 0 5 1 2 7 0 1 3 [88] [65, 66, 67]
    ColType.string (by decide) (by decide) (by decide) (by decide) (by decide)
    (by decide) (by decide) (by decide) (by decide) (by decide) (by decide)
    (by decide) (by decide)

/-- C8 counterexample: the column-name handler does not clamp: with one
text blob and a decoded text-subheader index of 5 (exceeding
`len(column_text_blobs) - 1 = 0`) it raises IndexError (returns `none`)
instead of completing. -/
theorem column_name_no_clamp_counterexample :
    read_val_h stCn.props.endianess (pyGetSlice stCn.cached_page 12 14) 2 =
      some 5 ∧
    ((stCn.column_names_strings.length : Int) - 1 < 5) ∧
    column_name_process_subheader stCn 0 28 = none := by decide

/-- Witness for `row_size_reads_three`. -/
theorem row_size_reads_three_witness :
    row_size_process_subheader stRs 0 480 = some { stRs with
      props := { stRs.props with
        row_length := 1, row_count := 2, mix_page_row_count := 3 } } :=
  row_size_reads_three stRs 0 480 1 2 3 (by decide) (by decide) (by decide)
    (by decide) (by decide) (by decide)

/-- C9 counterexample: two row-size payloads that differ exactly at
offsets 682 and 706 (the spec's `lcs`/`lcp` positions for an 8-byte
file) decode to identical properties: this version reads no
`lcs`/`lcp`. -/
theorem row_size_ignores_lcs_lcp_counterexample :
    stRs.cached_page.get? 682 ≠ stRs2.cached_page.get? 682 ∧
    stRs.cached_page.get? 706 ≠ stRs2.cached_page.get? 706 ∧
    (row_size_process_subheader stRs 0 480).map (fun s => s.props) =
      some rowSizeProps ∧
    (row_size_process_subheader stRs2 0 480).map (fun s => s.props) =
      some rowSizeProps :=
  ⟨by decide, by decide, by decide, by decide⟩
